import Mathlib

/-!
Verification of the hit-detection core of `replay_analysis/analysis/hit_detection/base_hit.py`.

The source operates on pandas/numpy floating-point data.  The shallow embedding
models a floating sample as `Fl α` — either a number of an ordered field `α`
or `nan` (pandas' NaN / missing value) — with NaN-propagating arithmetic and
NaN-false comparisons, and models the pure 3-D math generically over a scalar
type `β` so that the same definitions serve both the exact-real statements
(`β = ℝ`) and the executable resolver model (`β = Fl ℚ`).
-/

set_option maxHeartbeats 1600000

namespace CarballHit

/-- A floating-point sample: a value of `α`, or NaN (undefined / missing).
Arithmetic propagates `nan`; every comparison involving `nan` is false,
matching IEEE / numpy semantics for the operations used in the source. -/
inductive Fl (α : Type) where
  | nan : Fl α
  | num : α → Fl α
deriving DecidableEq, Repr

/-- NaN-propagating subtraction (`numpy` `-`). -/
def Fl.sub {α : Type} [Sub α] : Fl α → Fl α → Fl α
  | Fl.num a, Fl.num b => Fl.num (a - b)
  | _, _ => Fl.nan

/-- NaN-propagating addition (`numpy` `+`). -/
def Fl.add {α : Type} [Add α] : Fl α → Fl α → Fl α
  | Fl.num a, Fl.num b => Fl.num (a + b)
  | _, _ => Fl.nan

/-- NaN-propagating multiplication (`numpy` `*`). -/
def Fl.mul {α : Type} [Mul α] : Fl α → Fl α → Fl α
  | Fl.num a, Fl.num b => Fl.num (a * b)
  | _, _ => Fl.nan

/-- NaN-propagating negation (`numpy` unary `-`). -/
def Fl.neg {α : Type} [Neg α] : Fl α → Fl α
  | Fl.num a => Fl.num (-a)
  | Fl.nan => Fl.nan

/-- Lift a unary function NaN-propagatingly (models `np.cos` / `np.sin`,
which map NaN to NaN). -/
def Fl.map {α : Type} (f : α → α) : Fl α → Fl α
  | Fl.num a => Fl.num (f a)
  | Fl.nan => Fl.nan

/-- Python / numpy `<` on floats: false whenever either side is NaN. -/
def Fl.blt {α : Type} [LinearOrder α] : Fl α → Fl α → Bool
  | Fl.num a, Fl.num b => decide (a < b)
  | _, _ => false

instance {α : Type} [Sub α] : Sub (Fl α) := ⟨Fl.sub⟩

instance {α : Type} [Add α] : Add (Fl α) := ⟨Fl.add⟩

instance {α : Type} [Mul α] : Mul (Fl α) := ⟨Fl.mul⟩

instance {α : Type} [Neg α] : Neg (Fl α) := ⟨Fl.neg⟩

/-- A 3-component vector (the `pos_x, pos_y, pos_z` / `rot_x, rot_y, rot_z`
triples of the source). -/
@[ext]
structure Vec3 (β : Type) where
  x : β
  y : β
  z : β
deriving DecidableEq, Repr

/-- A 3×3 matrix, row major (the `np.array` built by
`get_rotation_matrix_from_row`). -/
@[ext]
structure Mat3 (β : Type) where
  m00 : β
  m01 : β
  m02 : β
  m10 : β
  m11 : β
  m12 : β
  m20 : β
  m21 : β
  m22 : β
deriving DecidableEq, Repr

/-- Componentwise vector subtraction (pandas Series subtraction on the
aligned `pos_*` labels). -/
def Vec3.sub {β : Type} [Sub β] (a b : Vec3 β) : Vec3 β :=
  ⟨a.x - b.x, a.y - b.y, a.z - b.z⟩

/-- Componentwise vector negation. -/
def Vec3.neg {β : Type} [Neg β] (a : Vec3 β) : Vec3 β :=
  ⟨-a.x, -a.y, -a.z⟩

/-- Matrix–vector product, `np.matmul` of a 3×3 matrix with a column vector. -/
def Mat3.mulVec {β : Type} [Mul β] [Add β] (M : Mat3 β) (v : Vec3 β) : Vec3 β :=
  ⟨M.m00 * v.x + M.m01 * v.y + M.m02 * v.z,
   M.m10 * v.x + M.m11 * v.y + M.m12 * v.z,
   M.m20 * v.x + M.m21 * v.y + M.m22 * v.z⟩

/-- Matrix transpose of a single 3×3 matrix. -/
def Mat3.transpose {β : Type} (M : Mat3 β) : Mat3 β :=
  ⟨M.m00, M.m10, M.m20, M.m01, M.m11, M.m21, M.m02, M.m12, M.m22⟩

/-- Matrix–matrix product of 3×3 matrices. -/
def Mat3.matMul {β : Type} [Mul β] [Add β] (A B : Mat3 β) : Mat3 β :=
  ⟨A.m00 * B.m00 + A.m01 * B.m10 + A.m02 * B.m20,
   A.m00 * B.m01 + A.m01 * B.m11 + A.m02 * B.m21,
   A.m00 * B.m02 + A.m01 * B.m12 + A.m02 * B.m22,
   A.m10 * B.m00 + A.m11 * B.m10 + A.m12 * B.m20,
   A.m10 * B.m01 + A.m11 * B.m11 + A.m12 * B.m21,
   A.m10 * B.m02 + A.m11 * B.m12 + A.m12 * B.m22,
   A.m20 * B.m00 + A.m21 * B.m10 + A.m22 * B.m20,
   A.m20 * B.m01 + A.m21 * B.m11 + A.m22 * B.m21,
   A.m20 * B.m02 + A.m21 * B.m12 + A.m22 * B.m22⟩

/-- The 3×3 identity matrix. -/
def Mat3.one {β : Type} [One β] [Zero β] : Mat3 β :=
  ⟨1, 0, 0, 0, 1, 0, 0, 0, 1⟩

/-- Source `get_rotation_matrix_from_row` (base_hit.py:168-176).  The six
components arrive in the order they were concatenated in
`get_rotation_matrices` (base_hit.py:162): `cos_roll, sin_roll, cos_pitch,
sin_pitch, cos_yaw, sin_yaw`. -/
def get_rotation_matrix_from_row {β : Type} [Mul β] [Add β] [Sub β] [Neg β]
    (cos_roll sin_roll cos_pitch sin_pitch cos_yaw sin_yaw : β) : Mat3 β :=
  ⟨cos_pitch * cos_yaw,
   cos_yaw * sin_pitch * sin_roll - cos_roll * sin_yaw,
   -(cos_roll * cos_yaw * sin_pitch) - sin_roll * sin_yaw,
   cos_pitch * sin_yaw,
   sin_yaw * sin_pitch * sin_roll + cos_roll * cos_yaw,
   -(cos_roll * sin_yaw * sin_pitch) + sin_roll * cos_yaw,
   sin_pitch,
   -(cos_pitch * sin_roll),
   cos_pitch * cos_roll⟩

/-- Per-row content of source `get_rotation_matrices` (base_hit.py:150-165):
pitch is `rot_x`, yaw is `rot_y`, roll is `rot_z`, and the matrix is built
from their cosines and sines by `get_rotation_matrix_from_row`.  The trig
kernel (`np.cos`, `np.sin`) is passed in as `cosf`/`sinf` so the same
definition serves the exact-real instantiation and the NaN-float one. -/
def rotation_matrix_of_angles {β : Type} [Mul β] [Add β] [Sub β] [Neg β]
    (cosf sinf : β → β) (rot : Vec3 β) : Mat3 β :=
  get_rotation_matrix_from_row (cosf rot.z) (sinf rot.z) (cosf rot.x) (sinf rot.x)
    (cosf rot.y) (sinf rot.y)

/-- Source `get_player_ball_displacements` (base_hit.py:138-142): per frame,
player position minus ball position. -/
def get_player_ball_displacements {β : Type} [Sub β]
    (player_positions ball_positions : List (Vec3 β)) : List (Vec3 β) :=
  List.zipWith Vec3.sub player_positions ball_positions

/-- `np.transpose` applied to a pandas `Series` (base_hit.py:182).  A pandas
`Series` is one-dimensional, so `np.transpose` returns it unchanged: the 3×3
matrices stored as its elements are NOT individually transposed.  The
embedding therefore is the identity on the list of per-frame matrices. -/
def np_transpose_series {β : Type} (ms : List (Mat3 β)) : List (Mat3 β) := ms

/-- Source `get_local_displacement` (base_hit.py:179-188): per frame,
`np.matmul` of the (intended-to-be-inverted, see `np_transpose_series`)
rotation matrix with the world displacement vector. -/
def get_local_displacement {β : Type} [Mul β] [Add β]
    (displacement : List (Vec3 β)) (rotation_matrices : List (Mat3 β)) : List (Vec3 β) :=
  List.zipWith Mat3.mulVec (np_transpose_series rotation_matrices) displacement

/-- Modelled from the spec: the Hitbox Collision Model (`hitbox.hitbox`,
not under `src/`) is consumed as an opaque shape-distance oracle — "a pure,
deterministic mapping from a local displacement to a scalar". -/
structure Hitbox (β : Type) where
  collision_distance : Vec3 β → β

/-- Source `get_collision_distances` (base_hit.py:199-204): apply the hitbox
oracle to each frame's local displacement. -/
def get_collision_distances {β : Type}
    (local_ball_displacement : List (Vec3 β)) (player_hitbox : Hitbox β) : List β :=
  local_ball_displacement.map player_hitbox.collision_distance

/-- Modelled from the spec: `get_distance` (referenced at base_hit.py:95 but
defined outside `src/`) — "evaluate the Collision Model" on a local
displacement. -/
def get_distance {β : Type} (local_displacement : Vec3 β) (h : Hitbox β) : β :=
  h.collision_distance local_displacement

/-- Modelled from the spec: `unrotate_position` (referenced at base_hit.py:93
but defined outside `src/`) — "Rotate the displacement into the player's
local frame using the 4.2 matrix", i.e. apply the transpose of the rotation
matrix built from the player's (pitch, yaw, roll) to the displacement. -/
def unrotate_position {β : Type} [Mul β] [Add β] [Sub β] [Neg β]
    (cosf sinf : β → β) (displacement rotation : Vec3 β) : Vec3 β :=
  (rotation_matrix_of_angles cosf sinf rotation).transpose.mulVec displacement

/-- The resolver's per-player collision-distance computation
(base_hit.py:93-95): unrotate the ball displacement by the player's rotation,
then evaluate the hitbox oracle. -/
def resolver_collision_distance {β : Type} [Mul β] [Add β] [Sub β] [Neg β]
    (cosf sinf : β → β) (h : Hitbox β) (ball_displacement player_rotation : Vec3 β) : β :=
  get_distance (unrotate_position cosf sinf ball_displacement player_rotation) h

/-- Source constant (base_hit.py:14). -/
def COLLISION_DISTANCE_HIGH_LIMIT {α : Type} [LinearOrderedCommRing α] : α := 500

/-- Source constant (base_hit.py:15); defined but not used by the decision. -/
def COLLISION_DISTANCE_LOW_LIMIT {α : Type} [LinearOrderedCommRing α] : α := 250

/-- A per-entity, per-frame positional row of the match data frame: the
`pos_*` / `rot_*` columns, each possibly NaN. -/
structure Sample (α : Type) where
  pos_x : Fl α
  pos_y : Fl α
  pos_z : Fl α
  rot_x : Fl α
  rot_y : Fl α
  rot_z : Fl α
deriving DecidableEq, Repr

/-- A per-frame row of `game.ball`: position, angular velocity, and the
per-frame responsible-team flag.  `hit_team_no` is `nan` when the flag is
absent or does not match a known team key. -/
structure BallSample (α : Type) where
  pos_x : Fl α
  pos_y : Fl α
  pos_z : Fl α
  ang_vel_x : Fl α
  ang_vel_y : Fl α
  ang_vel_z : Fl α
  hit_team_no : Fl Bool
deriving DecidableEq, Repr

/-- A player of the match model.  `loadout` has one entry, or two entries
keyed by team side (spec §3: "1 or 2 entries").  `data` is the player's
trajectory: `data f = none` models a frame absent from the player's data
frame index (a `.loc` `KeyError` in the source). -/
structure Player (α : Type) where
  name : String
  is_orange : Bool
  loadout : Nat ⊕ (Nat × Nat)
  data : Nat → Option (Sample α)

/-- A team: its `is_orange` flag and its player list. -/
structure Team (α : Type) where
  is_orange : Bool
  players : List (Player α)

/-- The match model consumed by the detector.  `ball` is the ball trajectory
in index order (frame number, row). -/
structure Game (α : Type) where
  teams : List (Team α)
  players : List (Player α)
  ball : List (Nat × BallSample α)

/-- The output Hit record (proto `Hit`): frame number, optional goal number,
externally assigned player id, collision distance and the ball's world
position written into `ball_data`. -/
structure Hit (α : Type) where
  frame_number : Nat
  goal_number : Option Int
  player_id : String
  collision_distance : Fl α
  ball_data : Vec3 (Fl α)
deriving DecidableEq, Repr

/-- The external collaborators of `get_hits_from_game`, bundled: the trig
kernel used by the rotation math (`np.cos` / `np.sin`), the external vehicle
shape lookup `get_hitbox` (outside `src/`), and the externally supplied
identity-mapping callable `id_creation`. -/
structure Ctx (α : Type) where
  cosf : α → α
  sinf : α → α
  get_hitbox : Nat → Hitbox (Fl α)
  id_creation : String → String

/-- `team_dict` (base_hit.py:28-31): a dict from `is_orange` to team, filled
in list order, so a later team with the same flag overwrites an earlier one;
lookup fails (KeyError) when no team carries the flag. -/
def team_dict_lookup {α : Type} (teams : List (Team α)) (flag : Bool) : Option (Team α) :=
  (teams.filter (fun t => t.is_orange == flag)).getLast?

/-- `game.ball.loc[frame_number, ...]`: the ball row at a frame number, if
that frame is in the ball index. -/
def ball_lookup {α : Type} (ball : List (Nat × BallSample α)) (f : Nat) : Option (BallSample α) :=
  (ball.find? (fun e => e.1 == f)).map Prod.snd

/-- Lines 68-71: fetch the frame's responsible-team flag from the ball row
and look the team up in `team_dict`; `none` models the caught `KeyError`
(frame missing from the ball index, NaN flag, or flag matching no team). -/
def frame_team {α : Type} (game : Game α) (f : Nat) : Option (Team α × BallSample α) :=
  match ball_lookup game.ball f with
  | none => none
  | some row =>
    match row.hit_team_no with
    | Fl.nan => none
    | Fl.num flag => (team_dict_lookup game.teams flag).map (fun t => (t, row))

/-- Lines 75-78: pick the car item id from the loadout — the only entry when
there is one, else the entry indexed by the player's `is_orange` flag. -/
def car_item_id {α : Type} (p : Player α) : Nat :=
  match p.loadout with
  | Sum.inl c => c
  | Sum.inr cs => if p.is_orange then cs.2 else cs.1

/-- The `pos_*` triple of a player sample. -/
def sample_pos {α : Type} (s : Sample α) : Vec3 (Fl α) := ⟨s.pos_x, s.pos_y, s.pos_z⟩

/-- The `rot_*` triple of a player sample. -/
def sample_rot {α : Type} (s : Sample α) : Vec3 (Fl α) := ⟨s.rot_x, s.rot_y, s.rot_z⟩

/-- The `pos_*` triple of a ball row. -/
def ball_pos {α : Type} (row : BallSample α) : Vec3 (Fl α) := ⟨row.pos_x, row.pos_y, row.pos_z⟩

/-- `Series.dropna` on a list of float samples: keep the defined values. -/
def series_dropna {α : Type} : List (Fl α) → List α :=
  List.filterMap (fun v => match v with | Fl.num a => some a | Fl.nan => none)

/-- `Series.any` on a float series with no NaNs left: true iff some value is
truthy, i.e. nonzero. -/
def series_any {α : Type} [Zero α] [DecidableEq α] (l : List α) : Bool :=
  l.any (fun v => decide (v ≠ 0))

/-- Line 88: `pd.concat([player_rotation, ball_displacement])` — the six
labelled values, rotation components first. -/
def joined_list {α : Type} (player_rotation ball_displacement : Vec3 (Fl α)) : List (Fl α) :=
  [player_rotation.x, player_rotation.y, player_rotation.z,
   ball_displacement.x, ball_displacement.y, ball_displacement.z]

/-- Lines 88-90: drop the undefined components of the joined series and test
`.any()`.  Note `.any()` is a truthiness test: it is false not only when
nothing survives `dropna` but also when every surviving value is zero. -/
def joined_check {α : Type} [Zero α] [DecidableEq α]
    (player_rotation ball_displacement : Vec3 (Fl α)) : Bool :=
  series_any (series_dropna (joined_list player_rotation ball_displacement))

/-- The state tracked by the per-frame player loop (lines 72-98): the closest
player so far, its distance (initially the 999999 sentinel), and the value of
the Python variable `ball_position`, last assigned at line 81 (`none` when
never yet assigned). -/
structure PlayerFoldState (α : Type) where
  closest_player : Option (Player α)
  closest_player_distance : Fl α
  ball_position : Option (Vec3 (Fl α))

/-- The distance a player contributes at a frame, when any: `none` when the
player's data frame lacks the row (KeyError skip, lines 79-86) or when the
joined rotation+displacement series fails the `.any()` check (line 90);
otherwise the resolver collision distance of lines 91-95.  The values fed to
`unrotate_position` are the reconstruction of lines 91-92: `joined.loc`
re-indexes by label, so each component is the original (possibly NaN)
component. -/
def player_eval {α : Type} [LinearOrderedCommRing α] (C : Ctx α) (row : BallSample α)
    (f : Nat) (player : Player α) : Option (Fl α) :=
  match player.data f with
  | none => none
  | some samp =>
    let ball_displacement := Vec3.sub (ball_pos row) (sample_pos samp)
    let player_rotation := sample_rot samp
    if joined_check player_rotation ball_displacement then
      some (resolver_collision_distance (Fl.map C.cosf) (Fl.map C.sinf)
        (C.get_hitbox (car_item_id player)) ball_displacement player_rotation)
    else none

/-- One iteration of the player loop (lines 74-98).  On a data `KeyError` the
state is untouched; otherwise line 81 assigns `ball_position`, and if the
joined series passes the check and the collision distance strictly improves
on the tracked minimum, the player becomes the closest player. -/
def player_step {α : Type} [LinearOrderedCommRing α] (C : Ctx α) (row : BallSample α)
    (f : Nat) (pst : PlayerFoldState α) (player : Player α) : PlayerFoldState α :=
  match player.data f with
  | none => pst
  | some samp =>
    let ball_displacement := Vec3.sub (ball_pos row) (sample_pos samp)
    let player_rotation := sample_rot samp
    let pst1 : PlayerFoldState α := { pst with ball_position := some (ball_pos row) }
    if joined_check player_rotation ball_displacement then
      let collision_distance := resolver_collision_distance (Fl.map C.cosf) (Fl.map C.sinf)
        (C.get_hitbox (car_item_id player)) ball_displacement player_rotation
      if Fl.blt collision_distance pst1.closest_player_distance then
        { pst1 with closest_player := some player,
                    closest_player_distance := collision_distance }
      else pst1
    else pst1

/-- The whole player loop of a frame, from the line 72-73 initial state. -/
def team_fold {α : Type} [LinearOrderedCommRing α] (C : Ctx α) (row : BallSample α)
    (f : Nat) (players : List (Player α)) (pst : PlayerFoldState α) : PlayerFoldState α :=
  players.foldl (player_step C row f) pst

/-- The accumulated effects of the detection pass: the `all_hits` dict in
insertion order, the `proto_game.game_stats.hits` list (mutated by
`hits.add()`, line 110), and the `ball_position` Python variable shared
across frame iterations. -/
structure ResolveState (α : Type) where
  all_hits : List (Nat × Hit α)
  proto_hits : List (Hit α)
  ball_position : Option (Vec3 (Fl α))

/-- Lines 110-119: build the Hit record for an accepted striker.  The goal
number is read from the `('game', 'goal_number')` column and omitted when
NaN; `ball_data` is whatever the `ball_position` variable holds (provably the
current frame's ball position whenever a hit is accepted — the `getD`
default is dead code kept only for totality). -/
def build_hit {α : Type} (C : Ctx α) (goal_col : Nat → Fl Int) (f : Nat)
    (p : Player α) (dist : Fl α) (bp : Option (Vec3 (Fl α))) : Hit α :=
  { frame_number := f
    goal_number := match goal_col f with | Fl.nan => none | Fl.num g => some g
    player_id := C.id_creation p.name
    collision_distance := dist
    ball_data := bp.getD ⟨Fl.nan, Fl.nan, Fl.nan⟩ }

/-- One iteration of the frame loop (lines 67-120): look up the responsible
team (skip the frame on failure), run the player loop, apply the acceptance
threshold (line 102, strict `<` against `COLLISION_DISTANCE_HIGH_LIMIT`), and
on acceptance append the built hit to both the proto list and `all_hits`. -/
def process_frame {α : Type} [LinearOrderedCommRing α] (C : Ctx α) (goal_col : Nat → Fl Int)
    (game : Game α) (st : ResolveState α) (f : Nat) : ResolveState α :=
  match frame_team game f with
  | none => st
  | some (team, row) =>
    let pst := team_fold C row f team.players ⟨none, Fl.num 999999, st.ball_position⟩
    let hit_player := if Fl.blt pst.closest_player_distance (Fl.num COLLISION_DISTANCE_HIGH_LIMIT)
      then pst.closest_player else none
    match hit_player with
    | none => { st with ball_position := pst.ball_position }
    | some p =>
      let hit := build_hit C goal_col f p pst.closest_player_distance pst.ball_position
      { all_hits := st.all_hits ++ [(f, hit)]
        proto_hits := st.proto_hits ++ [hit]
        ball_position := pst.ball_position }

/-- The row-wise `diff` of two consecutive angular-velocity samples followed
by `.any(axis=1)` (base_hit.py:128-129): NaN differences are skipped and a
row counts iff some remaining difference is nonzero. -/
def diff_any {α : Type} [LinearOrderedCommRing α] (prev cur : BallSample α) : Bool :=
  series_any (series_dropna
    [Fl.sub cur.ang_vel_x prev.ang_vel_x,
     Fl.sub cur.ang_vel_y prev.ang_vel_y,
     Fl.sub cur.ang_vel_z prev.ang_vel_z])

/-- The boolean-mask selection `diff_series.index[diff_series]`
(base_hit.py:130) over consecutive rows, carrying the previous row along;
the first row's diff is all-NaN and is never selected. -/
def select_diff_frames {α : Type} [LinearOrderedCommRing α] :
    (Nat × BallSample α) → List (Nat × BallSample α) → List Nat
  | _, [] => []
  | prev, cur :: rest =>
    if diff_any prev.2 cur.2 then cur.1 :: select_diff_frames cur rest
    else select_diff_frames cur rest

/-- Source `get_hit_frame_numbers_by_ball_ang_vel` (base_hit.py:126-131). -/
def get_hit_frame_numbers_by_ball_ang_vel {α : Type} [LinearOrderedCommRing α]
    (game : Game α) : List Nat :=
  match game.ball with
  | [] => []
  | first :: rest => select_diff_frames first rest

/-- Source `BaseHit.get_hits_from_game` (base_hit.py:22-124).  The batch
computations of lines 38-64 produce values that are never read by the rest
of the function (see `get_local_displacement` and friends for their
semantics; `create_rotation_matrix` at line 64 discards its result), so the
returned value is the frame loop of lines 67-120 over the selector's
candidate frames.  `goal_col` is the `('game', 'goal_number')` column of the
`data_frame` argument; `proto_hits0` is the `proto_game.game_stats.hits`
list before the call. -/
def get_hits_from_game {α : Type} [LinearOrderedCommRing α] (C : Ctx α)
    (game : Game α) (goal_col : Nat → Fl Int) (proto_hits0 : List (Hit α)) : ResolveState α :=
  let hit_frame_numbers := get_hit_frame_numbers_by_ball_ang_vel game
  hit_frame_numbers.foldl (process_frame C goal_col game) ⟨[], proto_hits0, none⟩

/-- Spec-language predicate: an angular-velocity component changed between
two consecutive frames — both samples are defined and their values differ. -/
def comp_changed {α : Type} (a b : Fl α) : Prop :=
  ∃ x y, a = Fl.num x ∧ b = Fl.num y ∧ x ≠ y

/-- Spec-language predicate: at least one of the three angular-velocity
components changed from the immediately preceding frame's sample. -/
def ang_vel_changed {α : Type} (prev cur : BallSample α) : Prop :=
  comp_changed prev.ang_vel_x cur.ang_vel_x ∨
  comp_changed prev.ang_vel_y cur.ang_vel_y ∨
  comp_changed prev.ang_vel_z cur.ang_vel_z

/-- A concrete three-row ball trajectory used to witness the selector claim:
the angular velocity changes only between frames 2 and 5. -/
def selector_witness_game : Game ℤ where
  teams := []
  players := []
  ball := [(2, ⟨Fl.num 0, Fl.num 0, Fl.num 0, Fl.num 0, Fl.num 0, Fl.num 0, Fl.nan⟩),
           (5, ⟨Fl.num 0, Fl.num 0, Fl.num 0, Fl.num 4, Fl.num 0, Fl.num 0, Fl.nan⟩),
           (9, ⟨Fl.num 0, Fl.num 0, Fl.num 0, Fl.num 4, Fl.num 0, Fl.num 0, Fl.nan⟩)]

/-- Witness data: a player whose trajectory has no rows at all. -/
def witness_player_z : Player ℤ where
  name := "z"
  is_orange := false
  loadout := Sum.inl 0
  data := fun _ => none

/-- Witness data: a player with one data row at frame 5. -/
def witness_player_a : Player ℤ where
  name := "a"
  is_orange := false
  loadout := Sum.inl 23
  data := fun f =>
    if f = 5 then some ⟨Fl.num 3, Fl.num 0, Fl.num 0, Fl.num 0, Fl.num 0, Fl.num 0⟩ else none

/-- Witness data: a second player with the same data row at frame 5. -/
def witness_player_b : Player ℤ where
  name := "b"
  is_orange := false
  loadout := Sum.inl 23
  data := fun f =>
    if f = 5 then some ⟨Fl.num 3, Fl.num 0, Fl.num 0, Fl.num 0, Fl.num 0, Fl.num 0⟩ else none

/-- Witness data: the blue team with the three players above. -/
def witness_team : Team ℤ :=
  ⟨false, [witness_player_z, witness_player_a, witness_player_b]⟩

/-- Witness data: ball row of the candidate frame, with a recognized team
flag. -/
def witness_row : BallSample ℤ :=
  ⟨Fl.num 1, Fl.num 0, Fl.num 0, Fl.num 4, Fl.num 0, Fl.num 0, Fl.num false⟩

/-- Witness data: two ball rows, angular velocity changing at frame 5. -/
def witness_game : Game ℤ where
  teams := [witness_team]
  players := []
  ball := [(0, ⟨Fl.num 0, Fl.num 0, Fl.num 0, Fl.num 0, Fl.num 0, Fl.num 0, Fl.nan⟩),
           (5, witness_row)]

/-- Witness data: oracles with a constant collision distance of 499, one
distance-unit below the acceptance threshold, producing ties. -/
def witness_ctx : Ctx ℤ where
  cosf := fun _ => 1
  sinf := fun _ => 0
  get_hitbox := fun _ => ⟨fun _ => Fl.num 499⟩
  id_creation := fun s => s

/-- Witness data: a constant defined goal-number column. -/
def witness_goal : Nat → Fl Int := fun _ => Fl.num 2

/-- Witness data: the empty initial resolve state. -/
def witness_st0 : ResolveState ℤ := ⟨[], [], none⟩

/-- Witness data: the player-loop result at the candidate frame. -/
def witness_pst : PlayerFoldState ℤ :=
  team_fold witness_ctx witness_row 5 witness_team.players ⟨none, Fl.num 999999, none⟩

/-! ## Helper lemmas -/

theorem Fl.sub_eq_neg_sub {α : Type} [AddCommGroup α] (a b : Fl α) :
    Fl.sub a b = Fl.neg (Fl.sub b a) := by
  cases a <;> cases b <;> simp [Fl.sub, Fl.neg, neg_sub]

theorem fl_extract_eq_some {α : Type} {x : Fl α} {a : α} :
    (match x with | Fl.num v => some v | Fl.nan => none) = some a ↔ x = Fl.num a := by
  cases x <;> simp

theorem mulVec_mulVec {β : Type} [CommRing β] (A B : Mat3 β) (v : Vec3 β) :
    Mat3.mulVec A (Mat3.mulVec B v) = Mat3.mulVec (Mat3.matMul A B) v := by
  simp only [Mat3.mulVec, Mat3.matMul]
  refine Vec3.ext ?_ ?_ ?_ <;> ring

theorem mulVec_one {β : Type} [CommRing β] (v : Vec3 β) : Mat3.mulVec Mat3.one v = v := by
  simp only [Mat3.mulVec, Mat3.one]
  refine Vec3.ext ?_ ?_ ?_ <;> ring

/-- The rotation matrix built from any angle triple is orthonormal:
multiplying it by its transpose gives the identity.  Uses only the
Pythagorean identity for each of the three angles. -/
theorem rotation_mul_transpose (p y r : ℝ) :
    Mat3.matMul (rotation_matrix_of_angles Real.cos Real.sin ⟨p, y, r⟩)
      (Mat3.transpose (rotation_matrix_of_angles Real.cos Real.sin ⟨p, y, r⟩)) = Mat3.one := by
  have hp := Real.sin_sq_add_cos_sq p
  have hy := Real.sin_sq_add_cos_sq y
  have hr := Real.sin_sq_add_cos_sq r
  simp only [rotation_matrix_of_angles, get_rotation_matrix_from_row, Mat3.matMul,
    Mat3.transpose, Mat3.one]
  refine Mat3.ext ?_ ?_ ?_ ?_ ?_ ?_ ?_ ?_ ?_
  · linear_combination (Real.cos y ^ 2 * Real.sin p ^ 2 + Real.sin y ^ 2) * hr +
      Real.cos y ^ 2 * hp + hy
  · linear_combination Real.cos y * Real.sin y * hp +
      Real.cos y * Real.sin y * (Real.sin p ^ 2 - 1) * hr
  · linear_combination (-(Real.cos p * Real.cos y * Real.sin p)) * hr
  · linear_combination Real.cos y * Real.sin y * hp +
      Real.cos y * Real.sin y * (Real.sin p ^ 2 - 1) * hr
  · linear_combination (Real.sin y ^ 2 * Real.sin p ^ 2 + Real.cos y ^ 2) * hr +
      Real.sin y ^ 2 * hp + hy
  · linear_combination (-(Real.cos p * Real.sin y * Real.sin p)) * hr
  · linear_combination (-(Real.cos p * Real.cos y * Real.sin p)) * hr
  · linear_combination (-(Real.cos p * Real.sin y * Real.sin p)) * hr
  · linear_combination Real.cos p ^ 2 * hr + hp

/-- `diff` + `.any(axis=1)` row semantics in claim language: the row counts
exactly when some angular-velocity component has both consecutive samples
defined with different values. -/
theorem diff_any_iff {α : Type} [LinearOrderedCommRing α] (prev cur : BallSample α) :
    diff_any prev cur = true ↔ ang_vel_changed prev cur := by
  unfold diff_any ang_vel_changed comp_changed series_any series_dropna
  rcases prev with ⟨px, py, pz, ax, ay, az, ht⟩
  rcases cur with ⟨qx, qy, qz, bx, byy, bz, ht2⟩
  cases ax <;> cases ay <;> cases az <;> cases bx <;> cases byy <;> cases bz <;>
    simp [Fl.sub, sub_ne_zero, ne_comm]

/-- Membership in the selector's output: exactly the frames of consecutive
`(previous, current)` ball rows whose diff row passes the `.any` test. -/
theorem select_mem_iff {α : Type} [LinearOrderedCommRing α] (first : Nat × BallSample α)
    (rest : List (Nat × BallSample α)) (f : Nat) :
    f ∈ select_diff_frames first rest ↔
      ∃ pr cur, (pr, cur) ∈ (first :: rest).zip rest ∧ cur.1 = f ∧
        diff_any pr.2 cur.2 = true := by
  induction rest generalizing first with
  | nil => simp [select_diff_frames]
  | cons cur rest ih =>
    cases h : diff_any first.2 cur.2 with
    | false =>
      simp only [select_diff_frames, h, Bool.false_eq_true, if_false, ih,
        List.zip_cons_cons, List.mem_cons]
      constructor
      · rintro ⟨pr, c, hm, rfl, hd⟩
        exact ⟨pr, c, Or.inr hm, rfl, hd⟩
      · rintro ⟨pr, c, hm | hm, rfl, hd⟩
        · rw [Prod.mk.injEq] at hm
          rcases hm with ⟨rfl, rfl⟩
          rw [h] at hd
          exact absurd hd (by simp)
        · exact ⟨pr, c, hm, rfl, hd⟩
    | true =>
      simp only [select_diff_frames, h, if_true, List.mem_cons, ih,
        List.zip_cons_cons]
      constructor
      · rintro (rfl | ⟨pr, c, hm, rfl, hd⟩)
        · exact ⟨first, cur, Or.inl rfl, rfl, h⟩
        · exact ⟨pr, c, Or.inr hm, rfl, hd⟩
      · rintro ⟨pr, c, hm | hm, rfl, hd⟩
        · rw [Prod.mk.injEq] at hm
          rcases hm with ⟨rfl, rfl⟩
          exact Or.inl rfl
        · exact Or.inr ⟨pr, c, hm, rfl, hd⟩

/-- The selector's output is a sublist of the non-head ball frame numbers. -/
theorem select_sublist {α : Type} [LinearOrderedCommRing α] (first : Nat × BallSample α)
    (rest : List (Nat × BallSample α)) :
    (select_diff_frames first rest).Sublist (rest.map Prod.fst) := by
  induction rest generalizing first with
  | nil => simp [select_diff_frames]
  | cons cur rest ih =>
    cases h : diff_any first.2 cur.2 with
    | false =>
      simp only [select_diff_frames, h, Bool.false_eq_true, if_false, List.map_cons]
      exact (ih cur).cons _
    | true =>
      simp only [select_diff_frames, h, if_true, List.map_cons]
      exact (ih cur).cons₂ _

/-- The selector's output under a strictly increasing ball index: sorted,
hence duplicate-free, and never containing the head frame. -/
theorem selector_sorted_props {α : Type} [LinearOrderedCommRing α] (game : Game α)
    (hsorted : List.Pairwise (· < ·) (game.ball.map Prod.fst)) :
    List.Pairwise (· < ·) (get_hit_frame_numbers_by_ball_ang_vel game) := by
  rcases hb : game.ball with _ | ⟨first, rest⟩
  · simp [get_hit_frame_numbers_by_ball_ang_vel, hb]
  · rw [hb, List.map_cons] at hsorted
    have h12 := List.pairwise_cons.mp hsorted
    simp only [get_hit_frame_numbers_by_ball_ang_vel, hb]
    exact h12.2.sublist (select_sublist first rest)

/-! ## Claims -/

/-- **C1** (code_bug evaluation).  The claim says the batch pipeline's local
displacement is `transpose(R) * world`.  At the rotation row for pitch 0,
yaw π/2, roll 0 (components `cos_roll = 1, sin_roll = 0, cos_pitch = 1,
sin_pitch = 0, cos_yaw = 0, sin_yaw = 1`) and world displacement `(1,0,0)`,
the code (whose `np.transpose` of the 1-D matrix Series transposes nothing)
returns `R * world = (0,1,0)`, while `transpose(R) * world = (0,-1,0)`:
the two differ, so the batch pipeline does not compute what the claim (and
the source's own variable name `inverse_rotation_matrices`) says. -/
theorem claim_C1_local_displacement_not_transposed :
    get_local_displacement (β := ℤ) [⟨1, 0, 0⟩]
        [get_rotation_matrix_from_row 1 0 1 0 0 1] = [⟨0, 1, 0⟩] ∧
    Mat3.mulVec (Mat3.transpose (get_rotation_matrix_from_row (1 : ℤ) 0 1 0 0 1))
        ⟨1, 0, 0⟩ = ⟨0, -1, 0⟩ ∧
    get_local_displacement (β := ℤ) [⟨1, 0, 0⟩]
        [get_rotation_matrix_from_row 1 0 1 0 0 1] ≠
      [Mat3.mulVec (Mat3.transpose (get_rotation_matrix_from_row (1 : ℤ) 0 1 0 0 1)) ⟨1, 0, 0⟩] :=
  ⟨by decide, by decide, by decide⟩

/-- **C2** (counterexample).  The claim says the per-frame Striker Resolver
and the batch Transform Pipeline compute the same collision distance from
the same `player − ball` world displacement.  With the player at `(1,0,0)`,
the ball at the origin, identity rotation and the oracle that reads off the
local x-coordinate, the batch path yields distance `1` while the resolver
path (which subtracts in the opposite order, base_hit.py:82) yields `-1`. -/
theorem claim_C2_paths_differ_counterexample :
    get_collision_distances (β := ℤ)
        (get_local_displacement (get_player_ball_displacements [⟨1, 0, 0⟩] [⟨0, 0, 0⟩])
          [rotation_matrix_of_angles (fun _ => 1) (fun _ => 0) ⟨0, 0, 0⟩])
        ⟨fun v => v.x⟩ = [1] ∧
    resolver_collision_distance (β := ℤ) (fun _ => 1) (fun _ => 0) ⟨fun v => v.x⟩
        (Vec3.sub ⟨0, 0, 0⟩ ⟨1, 0, 0⟩) ⟨0, 0, 0⟩ = -1 ∧
    [resolver_collision_distance (β := ℤ) (fun _ => 1) (fun _ => 0) ⟨fun v => v.x⟩
        (Vec3.sub ⟨0, 0, 0⟩ ⟨1, 0, 0⟩) ⟨0, 0, 0⟩] ≠
      get_collision_distances (β := ℤ)
        (get_local_displacement (get_player_ball_displacements [⟨1, 0, 0⟩] [⟨0, 0, 0⟩])
          [rotation_matrix_of_angles (fun _ => 1) (fun _ => 0) ⟨0, 0, 0⟩])
        ⟨fun v => v.x⟩ :=
  ⟨by decide, by decide, by decide⟩

/-- **C2** (amended).  The two paths use opposite displacement conventions:
for any ball row and player sample, the Striker Resolver's per-frame world
displacement (`ball_position - player_position`, base_hit.py:82) is the
exact componentwise negation of the Transform Pipeline's per-frame world
displacement (`player - ball`, base_hit.py:142), so the two paths do not in
general feed the oracle the same quantity. -/
theorem claim_C2_amended_displacements_negated {α : Type} [LinearOrderedCommRing α]
    (row : BallSample α) (samp : Sample α) :
    Vec3.sub (ball_pos row) (sample_pos samp) =
      Vec3.neg (Vec3.sub (sample_pos samp) (ball_pos row)) ∧
    get_player_ball_displacements [sample_pos samp] [ball_pos row] =
      [Vec3.sub (sample_pos samp) (ball_pos row)] := by
  constructor
  · show Vec3.sub _ _ = Vec3.neg (Vec3.sub _ _)
    simp only [Vec3.sub, Vec3.neg]
    refine Vec3.ext ?_ ?_ ?_ <;>
      exact Fl.sub_eq_neg_sub _ _
  · simp [get_player_ball_displacements]

/-- **C3** (counterexample).  The claim says a frame/player pair is dropped
only when, after removing undefined components, *no* values remain.  With
all six combined components defined but equal to zero, all values survive
`dropna` yet `.any()` is a truthiness test and returns false, so the pair is
dropped (the loop state is unchanged except for the `ball_position`
variable): at least one surviving value is not enough. -/
theorem claim_C3_all_zero_dropped_counterexample :
    joined_check (α := ℤ) ⟨Fl.num 0, Fl.num 0, Fl.num 0⟩ ⟨Fl.num 0, Fl.num 0, Fl.num 0⟩ = false ∧
    series_dropna (joined_list (α := ℤ) ⟨Fl.num 0, Fl.num 0, Fl.num 0⟩
        ⟨Fl.num 0, Fl.num 0, Fl.num 0⟩) = [0, 0, 0, 0, 0, 0] ∧
    (player_step (α := ℤ) ⟨fun _ => 1, fun _ => 0, fun _ => ⟨fun v => v.x⟩, fun s => s⟩
        ⟨Fl.num 0, Fl.num 0, Fl.num 0, Fl.num 0, Fl.num 0, Fl.num 0, Fl.num false⟩ 0
        ⟨none, Fl.num 999999, none⟩
        { name := "a", is_orange := false, loadout := Sum.inl 0,
          data := fun _ => some ⟨Fl.num 0, Fl.num 0, Fl.num 0, Fl.num 0, Fl.num 0, Fl.num 0⟩ }
      ).closest_player = none :=
  ⟨by decide, by decide, by rfl⟩

/-- **C3** (amended).  After the undefined components are removed, the
frame/player pair survives the line-90 check exactly when at least one
*nonzero* defined value remains: a pair whose surviving components are all
zero is dropped as well (pandas `.any()` tests truthiness, not presence). -/
theorem claim_C3_amended_check_iff_nonzero {α : Type} [LinearOrderedCommRing α]
    (player_rotation ball_displacement : Vec3 (Fl α)) :
    joined_check player_rotation ball_displacement = true ↔
      ∃ v, v ≠ 0 ∧ Fl.num v ∈ joined_list player_rotation ball_displacement := by
  unfold joined_check series_any series_dropna
  simp only [List.any_eq_true, List.mem_filterMap, fl_extract_eq_some, decide_eq_true_eq]
  constructor
  · rintro ⟨a, ⟨x, hx, hxa⟩, ha⟩
    exact ⟨a, ha, hxa ▸ hx⟩
  · rintro ⟨v, hv, hmem⟩
    exact ⟨v, ⟨Fl.num v, hmem, rfl⟩, hv⟩

/-- **C9** (confirmed).  For every rotation triple and every world
displacement vector, applying the rotation matrix built from the triple to
the spec-modelled local-frame result `transpose(R) * d` reproduces `d`
exactly over the reals. -/
theorem claim_C9_round_trip (pitch yaw roll : ℝ) (d : Vec3 ℝ) :
    Mat3.mulVec (rotation_matrix_of_angles Real.cos Real.sin ⟨pitch, yaw, roll⟩)
      (unrotate_position Real.cos Real.sin d ⟨pitch, yaw, roll⟩) = d := by
  rw [unrotate_position, mulVec_mulVec, rotation_mul_transpose, mulVec_one]

/-- **C6** (confirmed).  Under a strictly increasing ball frame index, the
Kinematic Frame Selector returns exactly the frames whose row forms, with
the immediately preceding row, a consecutive pair in which at least one
angular-velocity component has both samples defined and differing; the
first frame is never returned; rows whose three component comparisons are
all unevaluable contribute nothing; and the output is strictly increasing
with no duplicates. -/
theorem claim_C6_frame_selector {α : Type} [LinearOrderedCommRing α] (game : Game α)
    (hsorted : List.Pairwise (· < ·) (game.ball.map Prod.fst)) :
    (∀ f, f ∈ get_hit_frame_numbers_by_ball_ang_vel game ↔
      ∃ pr cur, (pr, cur) ∈ game.ball.zip game.ball.tail ∧ cur.1 = f ∧
        ang_vel_changed pr.2 cur.2) ∧
    List.Pairwise (· < ·) (get_hit_frame_numbers_by_ball_ang_vel game) ∧
    (get_hit_frame_numbers_by_ball_ang_vel game).Nodup ∧
    (∀ x, game.ball.head? = some x → x.1 ∉ get_hit_frame_numbers_by_ball_ang_vel game) := by
  have hpw := selector_sorted_props game hsorted
  refine ⟨?_, hpw, hpw.imp ne_of_lt, ?_⟩
  · rcases hb : game.ball with _ | ⟨first, rest⟩
    · simp [get_hit_frame_numbers_by_ball_ang_vel, hb]
    · intro f
      simp only [get_hit_frame_numbers_by_ball_ang_vel, hb, List.tail_cons]
      rw [select_mem_iff]
      constructor
      · rintro ⟨pr, c, hm, rfl, hd⟩
        exact ⟨pr, c, hm, rfl, (diff_any_iff pr.2 c.2).mp hd⟩
      · rintro ⟨pr, c, hm, rfl, hd⟩
        exact ⟨pr, c, hm, rfl, (diff_any_iff pr.2 c.2).mpr hd⟩
  · rcases hb : game.ball with _ | ⟨first, rest⟩
    · simp [get_hit_frame_numbers_by_ball_ang_vel, hb]
    · rw [hb, List.map_cons] at hsorted
      have h12 := List.pairwise_cons.mp hsorted
      simp only [get_hit_frame_numbers_by_ball_ang_vel, hb, List.head?_cons]
      intro x hx
      rcases Option.some.inj hx with rfl
      intro hmem
      have hm' := (select_sublist first rest).subset hmem
      exact absurd (h12.1 _ hm') (lt_irrefl _)

/-- Witness for **C6**: the sorted-index hypothesis holds on the concrete
trajectory, and the claim theorem applies to it. -/
theorem claim_C6_frame_selector_witness :
    List.Pairwise (· < ·) (selector_witness_game.ball.map Prod.fst) ∧
    ((∀ f, f ∈ get_hit_frame_numbers_by_ball_ang_vel selector_witness_game ↔
      ∃ pr cur, (pr, cur) ∈ selector_witness_game.ball.zip selector_witness_game.ball.tail ∧
        cur.1 = f ∧ ang_vel_changed pr.2 cur.2) ∧
    List.Pairwise (· < ·) (get_hit_frame_numbers_by_ball_ang_vel selector_witness_game) ∧
    (get_hit_frame_numbers_by_ball_ang_vel selector_witness_game).Nodup ∧
    (∀ x, selector_witness_game.ball.head? = some x →
      x.1 ∉ get_hit_frame_numbers_by_ball_ang_vel selector_witness_game)) :=
  ⟨by decide, claim_C6_frame_selector selector_witness_game (by decide)⟩


theorem Fl.blt_num_true {α : Type} [LinearOrder α] {d : Fl α} {b : α}
    (h : Fl.blt d (Fl.num b) = true) : ∃ db, d = Fl.num db ∧ db < b := by
  cases d with
  | nan => simp [Fl.blt] at h
  | num db => exact ⟨db, rfl, by simpa [Fl.blt] using h⟩

theorem Fl.blt_num_false {α : Type} [LinearOrder α] {db b : α}
    (h : Fl.blt (Fl.num db) (Fl.num b) = false) : b ≤ db := by
  simpa [Fl.blt] using h

theorem player_step_data_none {α : Type} [LinearOrderedCommRing α] (C : Ctx α)
    (row : BallSample α) (f : Nat) (pst : PlayerFoldState α) (p : Player α)
    (hd : p.data f = none) : player_step C row f pst p = pst := by
  unfold player_step
  rw [hd]

theorem player_step_eval_none {α : Type} [LinearOrderedCommRing α] (C : Ctx α)
    (row : BallSample α) (f : Nat) (pst : PlayerFoldState α) (p : Player α)
    (samp : Sample α) (hd : p.data f = some samp)
    (he : player_eval C row f p = none) :
    player_step C row f pst p = { pst with ball_position := some (ball_pos row) } := by
  unfold player_eval at he
  rw [hd] at he
  unfold player_step
  rw [hd]
  simp only at he ⊢
  split at he
  · simp at he
  · rename_i hc
    rw [if_neg hc]

theorem player_step_eval_some {α : Type} [LinearOrderedCommRing α] (C : Ctx α)
    (row : BallSample α) (f : Nat) (pst : PlayerFoldState α) (p : Player α)
    (d : Fl α) (he : player_eval C row f p = some d) :
    player_step C row f pst p =
      (if Fl.blt d pst.closest_player_distance then
        { closest_player := some p, closest_player_distance := d,
          ball_position := some (ball_pos row) }
      else { pst with ball_position := some (ball_pos row) }) := by
  unfold player_eval at he
  cases hd : p.data f with
  | none => rw [hd] at he; simp at he
  | some samp =>
    rw [hd] at he
    unfold player_step
    rw [hd]
    simp only at he ⊢
    split at he
    · rename_i hc
      rw [Option.some.injEq] at he
      subst he
      rw [if_pos hc]
    · simp at he

theorem team_fold_nil {α : Type} [LinearOrderedCommRing α] (C : Ctx α) (row : BallSample α)
    (f : Nat) (s : PlayerFoldState α) : team_fold C row f [] s = s := rfl

theorem team_fold_cons {α : Type} [LinearOrderedCommRing α] (C : Ctx α) (row : BallSample α)
    (f : Nat) (p : Player α) (ps : List (Player α)) (s : PlayerFoldState α) :
    team_fold C row f (p :: ps) s = team_fold C row f ps (player_step C row f s p) := rfl

/-- A single step keeps the tracked distance a number and never increases it. -/
theorem player_step_dist_num {α : Type} [LinearOrderedCommRing α] (C : Ctx α)
    (row : BallSample α) (f : Nat) (s : PlayerFoldState α) (p : Player α) (b : α)
    (hb : s.closest_player_distance = Fl.num b) :
    ∃ b2, (player_step C row f s p).closest_player_distance = Fl.num b2 ∧ b2 ≤ b := by
  cases hd : p.data f with
  | none => rw [player_step_data_none C row f s p hd, hb]; exact ⟨b, rfl, le_refl b⟩
  | some samp =>
    cases he : player_eval C row f p with
    | none =>
      rw [player_step_eval_none C row f s p samp hd he]
      exact ⟨b, hb, le_refl b⟩
    | some d =>
      rw [player_step_eval_some C row f s p d he]
      cases hlt : Fl.blt d s.closest_player_distance with
      | false => rw [if_neg (by simp)]; exact ⟨b, hb, le_refl b⟩
      | true =>
        rw [if_pos rfl]
        rw [hb] at hlt
        rcases Fl.blt_num_true hlt with ⟨db, rfl, hdb⟩
        exact ⟨db, rfl, le_of_lt hdb⟩

/-- The fold keeps the tracked distance a number and never increases it. -/
theorem team_fold_dist_num {α : Type} [LinearOrderedCommRing α] (C : Ctx α)
    (row : BallSample α) (f : Nat) (ps : List (Player α)) (s : PlayerFoldState α) (b : α)
    (hb : s.closest_player_distance = Fl.num b) :
    ∃ b2, (team_fold C row f ps s).closest_player_distance = Fl.num b2 ∧ b2 ≤ b := by
  induction ps generalizing s b with
  | nil => exact ⟨b, hb, le_refl b⟩
  | cons p ps ih =>
    rw [team_fold_cons]
    rcases player_step_dist_num C row f s p b hb with ⟨b2, hb2, hle⟩
    rcases ih _ _ hb2 with ⟨b3, hb3, hle2⟩
    exact ⟨b3, hb3, le_trans hle2 hle⟩

/-- Either the fold leaves the tracked (closest player, distance) pair
untouched, or the final closest player is some evaluated member of the list
whose distance is the final (strictly improved) tracked distance. -/
theorem team_fold_closest_or {α : Type} [LinearOrderedCommRing α] (C : Ctx α)
    (row : BallSample α) (f : Nat) (ps : List (Player α)) (s : PlayerFoldState α) (b : α)
    (hb : s.closest_player_distance = Fl.num b) :
    ((team_fold C row f ps s).closest_player = s.closest_player ∧
      (team_fold C row f ps s).closest_player_distance = s.closest_player_distance) ∨
    (∃ r ∈ ps, (team_fold C row f ps s).closest_player = some r ∧
      player_eval C row f r = some (team_fold C row f ps s).closest_player_distance ∧
      ∃ bf, (team_fold C row f ps s).closest_player_distance = Fl.num bf ∧ bf < b) := by
  induction ps generalizing s b with
  | nil => exact Or.inl ⟨rfl, rfl⟩
  | cons p ps ih =>
    rw [team_fold_cons]
    cases hd : p.data f with
    | none =>
      rw [player_step_data_none C row f s p hd]
      rcases ih s b hb with hl | ⟨r, hr, h1, h2, h3⟩
      · exact Or.inl hl
      · exact Or.inr ⟨r, List.mem_cons_of_mem p hr, h1, h2, h3⟩
    | some samp =>
      cases he : player_eval C row f p with
      | none =>
        rw [player_step_eval_none C row f s p samp hd he]
        rcases ih { s with ball_position := some (ball_pos row) } b hb with hl | ⟨r, hr, h1, h2, h3⟩
        · exact Or.inl hl
        · exact Or.inr ⟨r, List.mem_cons_of_mem p hr, h1, h2, h3⟩
      | some d =>
        rw [player_step_eval_some C row f s p d he]
        cases hlt : Fl.blt d s.closest_player_distance with
        | false =>
          rw [if_neg (by simp)]
          rcases ih { s with ball_position := some (ball_pos row) } b hb with hl | ⟨r, hr, h1, h2, h3⟩
          · exact Or.inl hl
          · exact Or.inr ⟨r, List.mem_cons_of_mem p hr, h1, h2, h3⟩
        | true =>
          rw [if_pos rfl]
          rw [hb] at hlt
          rcases Fl.blt_num_true hlt with ⟨db, rfl, hdb⟩
          rcases ih ⟨some p, Fl.num db, some (ball_pos row)⟩ db rfl with hl | ⟨r, hr, h1, h2, h3⟩
          · refine Or.inr ⟨p, List.mem_cons_self p ps, ?_, ?_, db, hl.2, hdb⟩
            · rw [hl.1]
            · rw [hl.2]; exact he
          · rcases h3 with ⟨bf, hbf, hlt2⟩
            exact Or.inr ⟨r, List.mem_cons_of_mem p hr, h1, h2, bf, hbf, lt_trans hlt2 hdb⟩

/-- Once any player has been recorded closest, the `ball_position` variable
holds the current frame's ball position. -/
theorem team_fold_ball_position {α : Type} [LinearOrderedCommRing α] (C : Ctx α)
    (row : BallSample α) (f : Nat) (ps : List (Player α)) (s : PlayerFoldState α)
    (hinv : s.closest_player ≠ none → s.ball_position = some (ball_pos row)) :
    (team_fold C row f ps s).closest_player ≠ none →
      (team_fold C row f ps s).ball_position = some (ball_pos row) := by
  induction ps generalizing s with
  | nil => exact hinv
  | cons p ps ih =>
    rw [team_fold_cons]
    refine ih _ ?_
    cases hd : p.data f with
    | none => rw [player_step_data_none C row f s p hd]; exact hinv
    | some samp =>
      cases he : player_eval C row f p with
      | none => rw [player_step_eval_none C row f s p samp hd he]; intro _; rfl
      | some d =>
        rw [player_step_eval_some C row f s p d he]
        cases hlt : Fl.blt d s.closest_player_distance with
        | false => rw [if_neg (by simp)]; intro _; rfl
        | true => rw [if_pos rfl]; intro _; rfl

/-- If every player of the list contributes no evaluated distance, the
tracked pair is unchanged by the fold. -/
theorem team_fold_all_skipped {α : Type} [LinearOrderedCommRing α] (C : Ctx α)
    (row : BallSample α) (f : Nat) (ps : List (Player α)) (s : PlayerFoldState α)
    (hall : ∀ p ∈ ps, player_eval C row f p = none) :
    (team_fold C row f ps s).closest_player = s.closest_player ∧
    (team_fold C row f ps s).closest_player_distance = s.closest_player_distance := by
  induction ps generalizing s with
  | nil => exact ⟨rfl, rfl⟩
  | cons p ps ih =>
    rw [team_fold_cons]
    have hp := hall p (List.mem_cons_self p ps)
    have hrest : ∀ q ∈ ps, player_eval C row f q = none :=
      fun q hq => hall q (List.mem_cons_of_mem p hq)
    cases hd : p.data f with
    | none => rw [player_step_data_none C row f s p hd]; exact ih s hrest
    | some samp =>
      rw [player_step_eval_none C row f s p samp hd hp]
      exact ih _ hrest

/-- If an evaluated member's distance is a number, the fold's final tracked
distance is a number bounded by it. -/
theorem team_fold_lower_bound {α : Type} [LinearOrderedCommRing α] (C : Ctx α)
    (row : BallSample α) (f : Nat) (ps : List (Player α)) (s : PlayerFoldState α)
    (b : α) (hb : s.closest_player_distance = Fl.num b) (q : Player α) (hq : q ∈ ps)
    (db : α) (he : player_eval C row f q = some (Fl.num db)) :
    ∃ b2, (team_fold C row f ps s).closest_player_distance = Fl.num b2 ∧ b2 ≤ db := by
  induction ps generalizing s b with
  | nil => exact absurd hq (List.not_mem_nil q)
  | cons p ps ih =>
    rw [team_fold_cons]
    rcases List.mem_cons.mp hq with rfl | hq2
    · rw [player_step_eval_some C row f s q (Fl.num db) he]
      cases hlt : Fl.blt (Fl.num db) s.closest_player_distance with
      | true =>
        rw [if_pos rfl]
        exact team_fold_dist_num C row f ps _ db rfl
      | false =>
        rw [if_neg (by simp)]
        rw [hb] at hlt
        have hble := Fl.blt_num_false hlt
        rcases team_fold_dist_num C row f ps { s with ball_position := some (ball_pos row) } b hb
          with ⟨b2, hb2, hle⟩
        exact ⟨b2, hb2, le_trans hle hble⟩
    · rcases player_step_dist_num C row f s p b hb with ⟨b2, hb2, hle⟩
      rcases ih _ b2 hb2 hq2 with ⟨b3, hb3, hle3⟩
      exact ⟨b3, hb3, hle3⟩

theorem process_frame_team_none {α : Type} [LinearOrderedCommRing α] (C : Ctx α)
    (goal_col : Nat → Fl Int) (game : Game α) (st : ResolveState α) (f : Nat)
    (h : frame_team game f = none) : process_frame C goal_col game st f = st := by
  unfold process_frame
  rw [h]

/-- **C4** (confirmed).  Skip semantics of the detection pass: a frame whose
responsible-team lookup fails leaves the state untouched; a player whose
per-frame data is missing leaves the player-loop state untouched; and such a
player can be removed from the team list without affecting the loop's result,
so the other players are still considered.  The pass itself is a total
function, so it always returns its mapping. -/
theorem claim_C4_skip_semantics {α : Type} [LinearOrderedCommRing α] (C : Ctx α) :
    (∀ (goal_col : Nat → Fl Int) (game : Game α) (st : ResolveState α) (f : Nat),
      frame_team game f = none → process_frame C goal_col game st f = st) ∧
    (∀ (row : BallSample α) (f : Nat) (pst : PlayerFoldState α) (p : Player α),
      p.data f = none → player_step C row f pst p = pst) ∧
    (∀ (row : BallSample α) (f : Nat) (pst : PlayerFoldState α) (p : Player α)
      (l1 l2 : List (Player α)), p.data f = none →
      team_fold C row f (l1 ++ p :: l2) pst = team_fold C row f (l1 ++ l2) pst) := by
  refine ⟨fun goal_col game st f h => process_frame_team_none C goal_col game st f h,
    fun row f pst p h => player_step_data_none C row f pst p h, ?_⟩
  intro row f pst p l1 l2 h
  unfold team_fold
  rw [List.foldl_append, List.foldl_append, List.foldl_cons,
    player_step_data_none C row f _ p h]

/-- **C5** (confirmed).  Acceptance semantics of a candidate frame with a
resolved responsible team: a hit record is appended exactly when the tracked
minimum distance is strictly below `COLLISION_DISTANCE_HIGH_LIMIT = 500`;
the tracked distance is a lower bound of every evaluated player distance and
is either one of them or the 999999 sentinel; and when no player of the team
is evaluated it stays exactly at the sentinel, which exceeds the threshold,
so no record is produced. -/
theorem claim_C5_acceptance_threshold {α : Type} [LinearOrderedCommRing α] (C : Ctx α)
    (goal_col : Nat → Fl Int) (game : Game α) (st : ResolveState α) (f : Nat)
    (team : Team α) (row : BallSample α) (pst : PlayerFoldState α)
    (h : frame_team game f = some (team, row))
    (hpst : pst = team_fold C row f team.players
      ⟨none, Fl.num 999999, st.ball_position⟩) :
    (Fl.blt pst.closest_player_distance (Fl.num COLLISION_DISTANCE_HIGH_LIMIT) = true →
      ∃ p, pst.closest_player = some p ∧
        (process_frame C goal_col game st f).all_hits =
          st.all_hits ++ [(f, build_hit C goal_col f p pst.closest_player_distance
            pst.ball_position)]) ∧
    (Fl.blt pst.closest_player_distance (Fl.num COLLISION_DISTANCE_HIGH_LIMIT) = false →
      (process_frame C goal_col game st f).all_hits = st.all_hits) ∧
    (∀ p ∈ team.players, ∀ d, player_eval C row f p = some (Fl.num d) →
      ∃ b, pst.closest_player_distance = Fl.num b ∧ b ≤ d) ∧
    (pst.closest_player_distance = Fl.num 999999 ∨
      ∃ p ∈ team.players, player_eval C row f p = some pst.closest_player_distance) ∧
    ((∀ p ∈ team.players, player_eval C row f p = none) →
      pst.closest_player_distance = Fl.num 999999 ∧
      (process_frame C goal_col game st f).all_hits = st.all_hits) := by
  have hor := team_fold_closest_or C row f team.players
    ⟨none, Fl.num 999999, st.ball_position⟩ 999999 rfl
  rw [← hpst] at hor
  refine ⟨?_, ?_, ?_, ?_, ?_⟩
  · intro hacc
    have hcl : ∃ p, pst.closest_player = some p := by
      rcases hor with ⟨h1, h2⟩ | ⟨r, _, h1, _, _⟩
      · rw [h2] at hacc
        have : ¬ ((999999 : α) < COLLISION_DISTANCE_HIGH_LIMIT) := by
          unfold COLLISION_DISTANCE_HIGH_LIMIT
          norm_num
        simp [Fl.blt, this] at hacc
      · exact ⟨r, h1⟩
    rcases hcl with ⟨p, hp⟩
    refine ⟨p, hp, ?_⟩
    unfold process_frame
    rw [h]
    simp only [← hpst, hacc, if_true, hp]
  · intro hacc
    unfold process_frame
    rw [h]
    simp only [← hpst, hacc, Bool.false_eq_true, if_false]
  · intro p hp d he
    have := team_fold_lower_bound C row f team.players
      ⟨none, Fl.num 999999, st.ball_position⟩ 999999 rfl p hp d he
    rw [← hpst] at this
    exact this
  · rcases hor with ⟨h1, h2⟩ | ⟨r, hr, h1, h2, h3⟩
    · exact Or.inl h2
    · exact Or.inr ⟨r, hr, h2⟩
  · intro hall
    have hskip := team_fold_all_skipped C row f team.players
      ⟨none, Fl.num 999999, st.ball_position⟩ hall
    rw [← hpst] at hskip
    refine ⟨hskip.2, ?_⟩
    unfold process_frame
    rw [h]
    have hfalse : Fl.blt pst.closest_player_distance
        (Fl.num COLLISION_DISTANCE_HIGH_LIMIT) = false := by
      rw [hskip.2]
      have : ¬ ((999999 : α) < COLLISION_DISTANCE_HIGH_LIMIT) := by
        unfold COLLISION_DISTANCE_HIGH_LIMIT
        norm_num
      simp [Fl.blt, this]
    simp only [← hpst, hfalse, Bool.false_eq_true, if_false]

/-- **C7** (confirmed).  When a striker is accepted at a candidate frame,
the appended hit record carries exactly that frame number, a goal number
present exactly when the frame's goal column is defined, the accepted
minimum collision distance, and the current frame's ball world position
(the `ball_position` variable provably holds this frame's ball row whenever
a striker was recorded). -/
theorem claim_C7_hit_record_fields {α : Type} [LinearOrderedCommRing α] (C : Ctx α)
    (goal_col : Nat → Fl Int) (game : Game α) (st : ResolveState α) (f : Nat)
    (team : Team α) (row : BallSample α) (pst : PlayerFoldState α)
    (h : frame_team game f = some (team, row))
    (hpst : pst = team_fold C row f team.players
      ⟨none, Fl.num 999999, st.ball_position⟩)
    (hacc : Fl.blt pst.closest_player_distance
      (Fl.num COLLISION_DISTANCE_HIGH_LIMIT) = true) :
    ∃ p, pst.closest_player = some p ∧
      (process_frame C goal_col game st f).all_hits = st.all_hits ++
        [(f, build_hit C goal_col f p pst.closest_player_distance pst.ball_position)] ∧
      (build_hit C goal_col f p pst.closest_player_distance
        pst.ball_position).frame_number = f ∧
      (goal_col f = Fl.nan → (build_hit C goal_col f p pst.closest_player_distance
        pst.ball_position).goal_number = none) ∧
      (∀ g : Int, goal_col f = Fl.num g → (build_hit C goal_col f p
        pst.closest_player_distance pst.ball_position).goal_number = some g) ∧
      (build_hit C goal_col f p pst.closest_player_distance
        pst.ball_position).collision_distance = pst.closest_player_distance ∧
      (build_hit C goal_col f p pst.closest_player_distance
        pst.ball_position).ball_data = ball_pos row := by
  have hor := team_fold_closest_or C row f team.players
    ⟨none, Fl.num 999999, st.ball_position⟩ 999999 rfl
  rw [← hpst] at hor
  have hcl : ∃ p, pst.closest_player = some p := by
    rcases hor with ⟨h1, h2⟩ | ⟨r, _, h1, _, _⟩
    · rw [h2] at hacc
      have : ¬ ((999999 : α) < COLLISION_DISTANCE_HIGH_LIMIT) := by
        unfold COLLISION_DISTANCE_HIGH_LIMIT
        norm_num
      simp [Fl.blt, this] at hacc
    · exact ⟨r, h1⟩
  rcases hcl with ⟨p, hp⟩
  have hbp : pst.ball_position = some (ball_pos row) := by
    have := team_fold_ball_position C row f team.players
      ⟨none, Fl.num 999999, st.ball_position⟩ (by intro hc; exact absurd rfl hc)
    rw [← hpst] at this
    exact this (by rw [hp]; exact Option.some_ne_none p)
  refine ⟨p, hp, ?_, rfl, ?_, ?_, rfl, ?_⟩
  · unfold process_frame
    rw [h]
    simp only [← hpst, hacc, if_true, hp]
  · intro hg
    unfold build_hit
    rw [hg]
  · intro g hg
    unfold build_hit
    rw [hg]
  · unfold build_hit
    rw [hbp]
    rfl

/-- **C8** (confirmed).  Tie-break determinism: if the player loop ends with
striker `p` and `p` does not occur among the teammates listed before it, then
`p`'s evaluated distance is exactly the final tracked minimum, and no earlier
teammate evaluated to that distance — the strict `<` update keeps the first
player attaining the minimum, so ties go to the earlier list position. -/
theorem claim_C8_tie_break {α : Type} [LinearOrderedCommRing α] (C : Ctx α)
    (row : BallSample α) (f : Nat) (l1 l2 : List (Player α)) (p : Player α)
    (bp0 : Option (Vec3 (Fl α)))
    (hfold : (team_fold C row f (l1 ++ p :: l2)
      ⟨none, Fl.num 999999, bp0⟩).closest_player = some p)
    (hnot : p ∉ l1) :
    player_eval C row f p = some ((team_fold C row f (l1 ++ p :: l2)
      ⟨none, Fl.num 999999, bp0⟩).closest_player_distance) ∧
    ∀ q ∈ l1, player_eval C row f q ≠ some ((team_fold C row f (l1 ++ p :: l2)
      ⟨none, Fl.num 999999, bp0⟩).closest_player_distance) := by
  have hor := team_fold_closest_or C row f (l1 ++ p :: l2)
    ⟨none, Fl.num 999999, bp0⟩ 999999 rfl
  rcases hor with ⟨h1, _⟩ | ⟨r, _, h1, h2, bf, hbf, _⟩
  · rw [hfold] at h1
    simp at h1
  · have hrp : r = p := Option.some.inj (h1.symm.trans hfold)
    subst hrp
    refine ⟨h2, ?_⟩
    intro q hq heq
    rw [hbf] at heq
    -- split the fold at the end of l1
    have hsplit : team_fold C row f (l1 ++ r :: l2) ⟨none, Fl.num 999999, bp0⟩ =
        team_fold C row f (r :: l2)
          (team_fold C row f l1 ⟨none, Fl.num 999999, bp0⟩) := by
      unfold team_fold
      rw [List.foldl_append]
    -- the state after l1 has a numeric distance bounded by bf
    rcases team_fold_lower_bound C row f l1 ⟨none, Fl.num 999999, bp0⟩ 999999 rfl
      q hq bf heq with ⟨b1, hb1, hble⟩
    -- the closest player after l1 is none or a member of l1, hence not r
    have hcl1 : (team_fold C row f l1 ⟨none, Fl.num 999999, bp0⟩).closest_player ≠
        some r := by
      rcases team_fold_closest_or C row f l1 ⟨none, Fl.num 999999, bp0⟩ 999999 rfl
        with ⟨hc1, _⟩ | ⟨r1, hr1, hc1, _, _⟩
      · rw [hc1]
        exact fun hx => Option.some_ne_none r hx.symm
      · rw [hc1]
        intro hx
        exact hnot ((Option.some.inj hx) ▸ hr1)
    -- apply the dichotomy to the second half of the fold
    rcases team_fold_closest_or C row f (r :: l2)
        (team_fold C row f l1 ⟨none, Fl.num 999999, bp0⟩) b1 hb1
      with ⟨hc2, _⟩ | ⟨r2, _, _, _, bf2, hbf2, hlt2⟩
    · rw [← hsplit] at hc2
      rw [hfold] at hc2
      exact hcl1 hc2.symm
    · rw [← hsplit] at hbf2
      rw [hbf] at hbf2
      injection hbf2 with hbf2
      subst hbf2
      exact absurd (lt_of_lt_of_le hlt2 hble) (lt_irrefl bf)

/-- Each frame iteration either leaves the hit lists untouched or appends a
single record, with matching frame key, to both `all_hits` and the proto
list. -/
theorem process_frame_effect {α : Type} [LinearOrderedCommRing α] (C : Ctx α)
    (goal_col : Nat → Fl Int) (game : Game α) (st : ResolveState α) (f : Nat) :
    ((process_frame C goal_col game st f).all_hits = st.all_hits ∧
      (process_frame C goal_col game st f).proto_hits = st.proto_hits) ∨
    (∃ hit : Hit α, (process_frame C goal_col game st f).all_hits =
        st.all_hits ++ [(f, hit)] ∧
      (process_frame C goal_col game st f).proto_hits = st.proto_hits ++ [hit] ∧
      hit.frame_number = f) := by
  unfold process_frame
  cases h : frame_team game f with
  | none => exact Or.inl ⟨rfl, rfl⟩
  | some pr =>
    rcases pr with ⟨team, row⟩
    simp only
    cases hacc : Fl.blt (team_fold C row f team.players
        ⟨none, Fl.num 999999, st.ball_position⟩).closest_player_distance
        (Fl.num COLLISION_DISTANCE_HIGH_LIMIT) with
    | false =>
      rw [if_neg (by simp)]
      exact Or.inl ⟨rfl, rfl⟩
    | true =>
      rw [if_pos rfl]
      cases hc : (team_fold C row f team.players
          ⟨none, Fl.num 999999, st.ball_position⟩).closest_player with
      | none => exact Or.inl ⟨rfl, rfl⟩
      | some p => exact Or.inr ⟨_, rfl, rfl, rfl⟩

/-- Folding the frame loop appends a block of new records: the same block, in
the same order, lands in `all_hits` and at the end of the proto list, its
keys form a sublist of the processed frames, and each record's stored frame
number is its key. -/
theorem frames_fold_effect {α : Type} [LinearOrderedCommRing α] (C : Ctx α)
    (goal_col : Nat → Fl Int) (game : Game α) (frames : List Nat) (st : ResolveState α) :
    ∃ news : List (Nat × Hit α),
      (frames.foldl (process_frame C goal_col game) st).all_hits = st.all_hits ++ news ∧
      (frames.foldl (process_frame C goal_col game) st).proto_hits =
        st.proto_hits ++ news.map Prod.snd ∧
      (news.map Prod.fst).Sublist frames ∧
      (∀ e ∈ news, e.2.frame_number = e.1) := by
  induction frames generalizing st with
  | nil => exact ⟨[], by simp, by simp, by simp, by simp⟩
  | cons f fs ih =>
    rw [List.foldl_cons]
    rcases process_frame_effect C goal_col game st f with ⟨h1, h2⟩ | ⟨hit, h1, h2, h3⟩
    · rcases ih (process_frame C goal_col game st f) with ⟨news, g1, g2, g3, g4⟩
      exact ⟨news, by rw [g1, h1], by rw [g2, h2], g3.cons f, g4⟩
    · rcases ih (process_frame C goal_col game st f) with ⟨news, g1, g2, g3, g4⟩
      refine ⟨(f, hit) :: news, ?_, ?_, ?_, ?_⟩
      · rw [g1, h1, List.append_assoc]
        rfl
      · rw [g2, h2, List.append_assoc]
        rfl
      · exact g3.cons₂ f
      · intro e he
        rcases List.mem_cons.mp he with rfl | he2
        · exact h3
        · exact g4 e he2

/-- **C10** (confirmed).  `get_hits_from_game` appends exactly the accepted
hit records to the proto hit list, in increasing frame order (given a
strictly increasing ball index), and the returned mapping holds those same
records with matching frame keys. -/
theorem claim_C10_proto_mutation {α : Type} [LinearOrderedCommRing α] (C : Ctx α)
    (goal_col : Nat → Fl Int) (game : Game α) (proto0 : List (Hit α))
    (hsorted : List.Pairwise (· < ·) (game.ball.map Prod.fst)) :
    (get_hits_from_game C game goal_col proto0).proto_hits =
      proto0 ++ ((get_hits_from_game C game goal_col proto0).all_hits.map Prod.snd) ∧
    List.Pairwise (· < ·)
      ((get_hits_from_game C game goal_col proto0).all_hits.map Prod.fst) ∧
    (∀ e ∈ (get_hits_from_game C game goal_col proto0).all_hits,
      e.2.frame_number = e.1) := by
  have hframes := selector_sorted_props game hsorted
  unfold get_hits_from_game
  simp only
  rcases frames_fold_effect C goal_col game (get_hit_frame_numbers_by_ball_ang_vel game)
    ⟨[], proto0, none⟩ with ⟨news, g1, g2, g3, g4⟩
  simp only at g1 g2
  rw [g1, g2]
  refine ⟨by simp, ?_, by simpa using g4⟩
  simpa using hframes.sublist g3


/-- Witness for **C4**: the skip lemmas apply at concrete inputs — frame 3 is
absent from the ball index, and the row-less player is skipped without
affecting the rest of the loop. -/
theorem claim_C4_skip_semantics_witness :
    frame_team witness_game 3 = none ∧
    witness_player_z.data 5 = none ∧
    process_frame witness_ctx witness_goal witness_game witness_st0 3 = witness_st0 ∧
    player_step witness_ctx witness_row 5 ⟨none, Fl.num 999999, none⟩ witness_player_z =
      ⟨none, Fl.num 999999, none⟩ ∧
    team_fold witness_ctx witness_row 5
        ([witness_player_a] ++ witness_player_z :: [witness_player_b])
        ⟨none, Fl.num 999999, none⟩ =
      team_fold witness_ctx witness_row 5 ([witness_player_a] ++ [witness_player_b])
        ⟨none, Fl.num 999999, none⟩ :=
  ⟨rfl, rfl,
    (claim_C4_skip_semantics witness_ctx).1 witness_goal witness_game witness_st0 3 rfl,
    (claim_C4_skip_semantics witness_ctx).2.1 witness_row 5 ⟨none, Fl.num 999999, none⟩
      witness_player_z rfl,
    (claim_C4_skip_semantics witness_ctx).2.2 witness_row 5 ⟨none, Fl.num 999999, none⟩
      witness_player_z [witness_player_a] [witness_player_b] rfl⟩

/-- Witness for **C5**: at the concrete candidate frame 5 the team lookup
succeeds and the acceptance characterization holds for the resulting player
loop. -/
theorem claim_C5_acceptance_threshold_witness :
    frame_team witness_game 5 = some (witness_team, witness_row) ∧
    witness_pst = team_fold witness_ctx witness_row 5 witness_team.players
      ⟨none, Fl.num 999999, witness_st0.ball_position⟩ ∧
    ((Fl.blt witness_pst.closest_player_distance
        (Fl.num COLLISION_DISTANCE_HIGH_LIMIT) = true →
      ∃ p, witness_pst.closest_player = some p ∧
        (process_frame witness_ctx witness_goal witness_game witness_st0 5).all_hits =
          witness_st0.all_hits ++ [(5, build_hit witness_ctx witness_goal 5 p
            witness_pst.closest_player_distance witness_pst.ball_position)]) ∧
    (Fl.blt witness_pst.closest_player_distance
        (Fl.num COLLISION_DISTANCE_HIGH_LIMIT) = false →
      (process_frame witness_ctx witness_goal witness_game witness_st0 5).all_hits =
        witness_st0.all_hits) ∧
    (∀ p ∈ witness_team.players, ∀ d,
      player_eval witness_ctx witness_row 5 p = some (Fl.num d) →
      ∃ b, witness_pst.closest_player_distance = Fl.num b ∧ b ≤ d) ∧
    (witness_pst.closest_player_distance = Fl.num 999999 ∨
      ∃ p ∈ witness_team.players,
        player_eval witness_ctx witness_row 5 p = some witness_pst.closest_player_distance) ∧
    ((∀ p ∈ witness_team.players, player_eval witness_ctx witness_row 5 p = none) →
      witness_pst.closest_player_distance = Fl.num 999999 ∧
      (process_frame witness_ctx witness_goal witness_game witness_st0 5).all_hits =
        witness_st0.all_hits)) :=
  ⟨rfl, rfl,
    claim_C5_acceptance_threshold witness_ctx witness_goal witness_game witness_st0 5
      witness_team witness_row witness_pst rfl rfl⟩

/-- Witness for **C7**: at the concrete candidate frame 5 the minimum
distance 499 is accepted and the built record's fields are as claimed. -/
theorem claim_C7_hit_record_fields_witness :
    frame_team witness_game 5 = some (witness_team, witness_row) ∧
    witness_pst = team_fold witness_ctx witness_row 5 witness_team.players
      ⟨none, Fl.num 999999, witness_st0.ball_position⟩ ∧
    Fl.blt witness_pst.closest_player_distance
      (Fl.num COLLISION_DISTANCE_HIGH_LIMIT) = true ∧
    (∃ p, witness_pst.closest_player = some p ∧
      (process_frame witness_ctx witness_goal witness_game witness_st0 5).all_hits =
        witness_st0.all_hits ++ [(5, build_hit witness_ctx witness_goal 5 p
          witness_pst.closest_player_distance witness_pst.ball_position)] ∧
      (build_hit witness_ctx witness_goal 5 p witness_pst.closest_player_distance
        witness_pst.ball_position).frame_number = 5 ∧
      (witness_goal 5 = Fl.nan → (build_hit witness_ctx witness_goal 5 p
        witness_pst.closest_player_distance witness_pst.ball_position).goal_number = none) ∧
      (∀ g : Int, witness_goal 5 = Fl.num g → (build_hit witness_ctx witness_goal 5 p
        witness_pst.closest_player_distance
        witness_pst.ball_position).goal_number = some g) ∧
      (build_hit witness_ctx witness_goal 5 p witness_pst.closest_player_distance
        witness_pst.ball_position).collision_distance =
          witness_pst.closest_player_distance ∧
      (build_hit witness_ctx witness_goal 5 p witness_pst.closest_player_distance
        witness_pst.ball_position).ball_data = ball_pos witness_row) :=
  ⟨rfl, rfl, by decide,
    claim_C7_hit_record_fields witness_ctx witness_goal witness_game witness_st0 5
      witness_team witness_row witness_pst rfl rfl (by decide)⟩

/-- Witness for **C8**: players `a` and `b` tie at distance 499; the loop
ends with `a`, which does not occur before itself, and the tie-break
characterization applies. -/
theorem claim_C8_tie_break_witness :
    (team_fold witness_ctx witness_row 5
      ([witness_player_z] ++ witness_player_a :: [witness_player_b])
      ⟨none, Fl.num 999999, none⟩).closest_player = some witness_player_a ∧
    witness_player_a ∉ [witness_player_z] ∧
    (player_eval witness_ctx witness_row 5 witness_player_a =
      some ((team_fold witness_ctx witness_row 5
        ([witness_player_z] ++ witness_player_a :: [witness_player_b])
        ⟨none, Fl.num 999999, none⟩).closest_player_distance) ∧
    ∀ q ∈ [witness_player_z], player_eval witness_ctx witness_row 5 q ≠
      some ((team_fold witness_ctx witness_row 5
        ([witness_player_z] ++ witness_player_a :: [witness_player_b])
        ⟨none, Fl.num 999999, none⟩).closest_player_distance)) := by
  have hnot : witness_player_a ∉ [witness_player_z] := by
    intro hmem
    have h := List.mem_singleton.mp hmem
    have hn := congrArg Player.name h
    simp [witness_player_a, witness_player_z] at hn
  exact ⟨rfl, hnot,
    claim_C8_tie_break witness_ctx witness_row 5 [witness_player_z]
      [witness_player_b] witness_player_a none rfl hnot⟩

/-- Witness for **C10**: the concrete match has a strictly increasing ball
index and the proto-mutation characterization applies to it. -/
theorem claim_C10_proto_mutation_witness :
    List.Pairwise (· < ·) (witness_game.ball.map Prod.fst) ∧
    ((get_hits_from_game witness_ctx witness_game witness_goal []).proto_hits =
      [] ++ ((get_hits_from_game witness_ctx witness_game
        witness_goal []).all_hits.map Prod.snd) ∧
    List.Pairwise (· < ·)
      ((get_hits_from_game witness_ctx witness_game
        witness_goal []).all_hits.map Prod.fst) ∧
    (∀ e ∈ (get_hits_from_game witness_ctx witness_game witness_goal []).all_hits,
      e.2.frame_number = e.1)) :=
  ⟨by decide,
    claim_C10_proto_mutation witness_ctx witness_goal witness_game [] (by decide)⟩

end CarballHit
